import Mathlib

/-!
Shallow embedding of the videoverse FFmpeg edit compiler
(src/app/api/videoEditor/route.ts, src/unnamed/part_013,
src/app/api/analyzeEdit/route.ts).

Durations and numeric effect parameters are JavaScript numbers in the
source; they are embedded as rationals (ℚ).  Filter-graph construction in
the source concatenates strings; here each appended chunk
`[in1][in2]...<filterExpr>[out1];` is embedded as a `FilterStage` carrying
its input labels, a structured filter expression and its output labels, so
that label bookkeeping is the faithful image of the string the code builds.
-/

namespace Videoverse

/-- JavaScript `a || d` on an optional number: `undefined` and `0` (and
`NaN`, which has no ℚ counterpart) are falsy and yield the default.
Embeds patterns such as `clip.duration || sourceDuration` and
`aiResponse.audio?.volume || DEFAULT_VALUES.audio.volume`. -/
def jsOr (v : Option ℚ) (d : ℚ) : ℚ :=
  match v with
  | none => d
  | some x => if x = 0 then d else x

/-- JavaScript `x || d` on a present number field, e.g.
`body.effects.transition.duration || 1`. -/
def jsOrNum (x d : ℚ) : ℚ := if x = 0 then d else x

/-- `clamp` from src/app/api/analyzeEdit/route.ts:
`Math.min(Math.max(value, min), max)`. -/
def clamp (value lo hi : ℚ) : ℚ := min (max value lo) hi

/-! ## Duration reconciliation (videoEditor POST, lines 158–195) -/

/-- A clip of the edit request body (`VideoClip` in the source), with the
fields the compiler reads. `duration` is the requested duration;
`speed` exists only in the part_013 revision. -/
structure VideoClip where
  fileName : String
  duration : Option ℚ := none
  speed : Option ℚ := none
  deriving DecidableEq

/-- `clip.duration || sourceDuration` — the per-clip duration used to
accumulate `totalVideoDuration` and stored as `actualDuration` before
scaling (route.ts line 168). -/
def clipDuration (c : VideoClip) (sourceDuration : ℚ) : ℚ :=
  jsOr c.duration sourceDuration

/-- The list of per-clip durations for a clip list zipped with its probed
source durations. -/
def clipDurations (clips : List (VideoClip × ℚ)) : List ℚ :=
  clips.map fun p => clipDuration p.1 p.2

/-- `totalVideoDuration`: the sum of per-clip durations (route.ts
lines 159–176). -/
def totalVideoDuration (clips : List (VideoClip × ℚ)) : ℚ :=
  (clipDurations clips).sum

/-- `audioDuration`: 0 unless the audio file exists, in which case it is
the probed duration (route.ts lines 179–185). -/
def audioDurationOf (hasAudio : Bool) (probed : ℚ) : ℚ :=
  if hasAudio then probed else 0

/-- `targetDuration = Math.min(totalVideoDuration, audioDuration)`
(route.ts line 188). -/
def targetDuration (total audioDuration : ℚ) : ℚ :=
  min total audioDuration

/-- `durationScale = targetDuration / totalVideoDuration` (route.ts
line 191).  In ℚ a zero denominator gives 0 where JavaScript gives NaN;
no theorem below relies on the value at a zero denominator. -/
def durationScale (total target : ℚ) : ℚ := target / total

/-- The adjusted per-clip `actualDuration`s:
`clip.actualDuration * durationScale` (route.ts lines 192–195). -/
def actualDurations (clips : List (VideoClip × ℚ)) (audioDuration : ℚ) : List ℚ :=
  let total := totalVideoDuration clips
  let scale := durationScale total (targetDuration total audioDuration)
  (clipDurations clips).map (· * scale)

/-! ## Edit request data model (the request body types of both revisions) -/

/-- A text overlay entry of `effects.text`. -/
structure TextOverlay where
  content : String
  position : String
  fontSize : ℚ
  color : String
  startTime : Option ℚ := none
  duration : Option ℚ := none
  deriving DecidableEq

/-- `effects.colorAdjustment`. -/
structure ColorAdjustment where
  brightness : Option ℚ := none
  contrast : Option ℚ := none
  saturation : Option ℚ := none
  deriving DecidableEq

/-- `effects.transition`. -/
structure Transition where
  type : String
  duration : ℚ
  deriving DecidableEq

/-- `effects.zoomPan` (part_013 revision; only the three fields the graph
code destructures are read). -/
structure ZoomPan where
  zoomStart : Option ℚ := none
  zoomEnd : Option ℚ := none
  duration : Option ℚ := none
  deriving DecidableEq

/-- `body.effects`. -/
structure Effects where
  transition : Option Transition := none
  text : Option (List TextOverlay) := none
  colorAdjustment : Option ColorAdjustment := none
  speed : Option ℚ := none
  zoomPan : Option ZoomPan := none
  deriving DecidableEq

/-- `body.audio`. -/
structure AudioSettingsReq where
  volume : Option ℚ := none
  fadeIn : Option ℚ := none
  fadeOut : Option ℚ := none
  bass : Option ℚ := none
  treble : Option ℚ := none
  deriving DecidableEq

/-- The edit request body (`EditRequest` in the source; output settings are
not read by the graph builder and are omitted). `finalFilter` exists only
in the part_013 revision. -/
structure EditRequest where
  clips : List VideoClip
  audio : Option AudioSettingsReq := none
  effects : Option Effects := none
  finalFilter : Option String := none
  deriving DecidableEq

/-! ## Filter graph representation

Each `;`-terminated chunk the source appends to `filterGraph` has the shape
`[in1][in2]...<filterExpression>[out1];`.  A chunk is embedded as a
`FilterStage` with its input labels, a structured expression carrying the
numeric parameters the source interpolates, and its output labels. -/

/-- The filter expressions the two revisions emit.  Constructor comments
give the exact source text. -/
inductive FilterExpr where
  /-- route.ts per-clip chain: `fps=24,scale=1080:1920:force_original_aspect_ratio=decrease,pad=1080:1920:(ow-iw)/2:(oh-ih)/2,setsar=1,trim=duration=D,setpts=PTS-STARTPTS`. -/
  | normChain (actualDuration : ℚ)
  /-- `fade=t=out:st=S:d=D`. -/
  | fadeOut (st d : ℚ)
  /-- `fade=t=in:st=0:d=D`. -/
  | fadeIn (d : ℚ)
  /-- `fade=t=in:st=0:d=DIN,fade=t=out:st=S:d=DOUT`. -/
  | fadeInOut (dIn stOut dOut : ℚ)
  /-- `concat=n=N:v=1:a=0`. -/
  | concat (n : Nat)
  /-- `eq=brightness=B:contrast=C:saturation=S`. -/
  | eqAdjust (brightness contrast saturation : ℚ)
  /-- `copy`. -/
  | copy
  /-- route.ts inline `drawtext=text='C':fontsize=F:fontcolor=COL:POS:fontfile=...:enable='between(t,ST,EN)'` (text is embedded unescaped). -/
  | drawtextSwitch (content : String) (fontSize : ℚ) (color : String)
      (position : String) (startTime endTime : ℚ)
  /-- `setpts=P*PTS`. -/
  | setpts (factor : ℚ)
  /-- `format=yuv420p`. -/
  | formatYuv
  /-- part_013 dead `clipFilters` chunk: `trim=duration=D,setpts=PTS/SPEED`. -/
  | trimSpeed (d speed : ℚ)
  /-- part_013 per-clip chain: `fps=24,scale=4000:-1,setsar=1`. -/
  | scaleChain13
  /-- part_013 `zoompan=z=...:x=...:y=...:d=1:s=1080x1920:fps=24`; the raw
  destructured parameters are stored (the source rounds the derived zoom
  speed with `toFixed(4)` when serializing). -/
  | zoompan13 (zoomStart zoomEnd zoomDuration : ℚ)
  /-- part_013 no-zoom branch: `scale=1080:1920:force_original_aspect_ratio=decrease,pad=1080:1920:(ow-iw)/2:(oh-ih)/2`. -/
  | padChain13
  /-- part_013 `buildTextFilter` drawtext with escaped text and resolved
  position, `enable='gte(t,ST)*lte(t,EN)'`. -/
  | drawtext13 (escapedContent : String) (fontSize : ℚ) (color : String)
      (position : String) (startTime endTime : ℚ)
  /-- part_013 raw `finalFilter` passthrough. -/
  | rawFilter (s : String)
  deriving DecidableEq

/-- One `[inputs...]expr[outputs...];` chunk of the generated graph. -/
structure FilterStage where
  inputs : List String
  expr : FilterExpr
  outputs : List String
  deriving DecidableEq

/-- `true` iff some stage of the graph lists `l` among its output labels. -/
def labelProduced (g : List FilterStage) (l : String) : Bool :=
  g.any fun s => s.outputs.contains l

/-- `true` iff some stage of the graph lists `l` among its input labels. -/
def labelConsumed (g : List FilterStage) (l : String) : Bool :=
  g.any fun s => s.inputs.contains l

/-! ## route.ts filter-graph construction (POST, lines 221–347) -/

/-- Stage 1 normalization (route.ts lines 224–240): input `[i:v]`, full
fps/scale/pad/setsar/trim chain, output `[normclip{i}]`. -/
def normStages (ds : List ℚ) : List FilterStage :=
  ds.enum.map fun p =>
    ⟨[toString p.1 ++ ":v"], .normChain p.2, ["normclip" ++ toString p.1]⟩

/-- The fade filter chosen for clip `i` of `n` with actual duration `d` and
transition duration `T` (route.ts lines 247–264): `i = 0` gets only a
fade-out starting at `d − T`, `i = n − 1` gets only a fade-in, middle
clips get both.  With `n = 1` the single clip matches the `i = 0` branch
and receives a fade-out. -/
def fadeExpr (T : ℚ) (n i : Nat) (d : ℚ) : FilterExpr :=
  if i = 0 then .fadeOut (d - T) T
  else if i = n - 1 then .fadeIn T
  else .fadeInOut T (d - T) T

/-- The transition fade stages: `[normclip{i}]fade...[fadedclip{i}]`. -/
def fadeStages (T : ℚ) (ds : List ℚ) : List FilterStage :=
  ds.enum.map fun p =>
    ⟨["normclip" ++ toString p.1], fadeExpr T ds.length p.1 p.2,
     ["fadedclip" ++ toString p.1]⟩

/-- route.ts color stage (lines 282–291): `eq` with destructuring defaults
0/1/1, or `copy`, from `[mainv]` to `[colorv]`. -/
def colorStage (ca : Option ColorAdjustment) : FilterStage :=
  match ca with
  | some c =>
      ⟨["mainv"],
       .eqAdjust (c.brightness.getD 0) (c.contrast.getD 1) (c.saturation.getD 1),
       ["colorv"]⟩
  | none => ⟨["mainv"], .copy, ["colorv"]⟩

/-- The output label of text stage `i` of `n`: `textv` for the last
overlay, else `text{i}` (route.ts lines 299–300). -/
def textLabel (n i : Nat) : String :=
  if i = n - 1 then "textv" else "text" ++ toString i

/-- route.ts inline position switch (lines 304–315): only two offset names
are recognized, everything else becomes the center expression. -/
def routeTextPosition (p : String) : String :=
  if p = "center,center-100" then "x=(w-text_w)/2:y=(h-text_h)/2-100"
  else if p = "center,center+100" then "x=(w-text_w)/2:y=(h-text_h)/2+100"
  else "x=(w-text_w)/2:y=(h-text_h)/2"

/-- route.ts text overlay stage `i` (lines 296–327). -/
def routeTextStage (n i : Nat) (t : TextOverlay) : FilterStage :=
  ⟨[if i = 0 then "colorv" else textLabel n (i - 1)],
   .drawtextSwitch t.content t.fontSize t.color (routeTextPosition t.position)
     (jsOr t.startTime 0) (jsOr t.startTime 0 + jsOr t.duration 0),
   [textLabel n i]⟩

/-- route.ts text overlay section (lines 293–330): one drawtext stage per
overlay threaded `colorv → text0 → ... → textv`, or a single
`[colorv]copy[textv]` when the list is missing or empty. -/
def routeTextStages (ot : Option (List TextOverlay)) : List FilterStage :=
  match ot with
  | some ts =>
      if ts.length > 0 then ts.enum.map fun p => routeTextStage ts.length p.1 p.2
      else [⟨["colorv"], .copy, ["textv"]⟩]
  | none => [⟨["colorv"], .copy, ["textv"]⟩]

/-- route.ts global speed stage (lines 332–338): `if (body.effects.speed)`
treats an absent or zero speed as falsy and emits `copy`. -/
def speedStage (sp : Option ℚ) : FilterStage :=
  match sp with
  | some s => if s = 0 then ⟨["textv"], .copy, ["speedv"]⟩
              else ⟨["textv"], .setpts (1 / s), ["speedv"]⟩
  | none => ⟨["textv"], .copy, ["speedv"]⟩

/-- The whole route.ts filter graph (lines 221–345) for per-clip actual
durations `ds`: normalization stages, then fades (when a transition is
requested) and `concat` into `[mainv]`, then — only when `body.effects` is
present — color, text, speed and `format` chained to `[finalv]`; with no
effects object just `[mainv]format=yuv420p[finalv]`. -/
def routeFilterGraph (effects : Option Effects) (ds : List ℚ) : List FilterStage :=
  let n := ds.length
  normStages ds ++
  (match effects.bind (·.transition) with
   | some t =>
       fadeStages (jsOrNum t.duration 1) ds ++
       [⟨(List.range n).map (fun i => "fadedclip" ++ toString i), .concat n, ["mainv"]⟩]
   | none =>
       [⟨(List.range n).map (fun i => "normclip" ++ toString i), .concat n, ["mainv"]⟩]) ++
  (match effects with
   | some e =>
       colorStage e.colorAdjustment ::
       routeTextStages e.text ++
       [speedStage e.speed, ⟨["speedv"], .formatYuv, ["finalv"]⟩]
   | none => [⟨["mainv"], .formatYuv, ["finalv"]⟩])

/-! ## Command assembly (FFmpegCommandBuilder and output options) -/

/-- The output options route.ts/part_013 append (lines 350–372 resp.
408–430), structured. -/
inductive OutputOpt where
  /-- `-map "[finalv]"`. -/
  | mapLabel (label : String)
  /-- `-af "afade=t=in:st=0:d=F,afade=t=out:st=S:d=O,volume=V"`. -/
  | audioFilter (fadeIn fadeOutStart fadeOut volume : ℚ)
  /-- `-map N:a`. -/
  | mapAudioStream (idx : Int)
  /-- `-c:v libx264`. -/
  | videoCodec
  /-- `-preset medium`. -/
  | presetMedium
  /-- `-crf 23`. -/
  | crf23
  /-- `-c:a aac`. -/
  | audioCodec
  /-- `-s 1080x1920`. -/
  | size1080x1920
  /-- `-r 24`. -/
  | rate24
  /-- `-t T`. -/
  | duration (t : ℚ)
  deriving DecidableEq

/-- The compiler's output: `FFmpegCommandBuilder`'s accumulated state at
`build()`.  `filterComplex` is the builder's array of `addFilter` calls
(the source makes exactly one call, passing the whole graph). -/
structure CompiledCommand where
  inputFiles : List String
  filterComplex : List (List FilterStage)
  outputOptions : List OutputOpt
  outputPath : String
  deriving DecidableEq

/-- `buildFilterComplex` emits the `-filter_complex` flag iff the builder's
`filterComplex` array is non-empty (route.ts lines 88–92). -/
def hasFilterComplexFlag (c : CompiledCommand) : Bool :=
  !c.filterComplex.isEmpty

/-- The audio `-af`/`-map` output options (route.ts lines 353–363): present
only when the audio file exists; `body.audio` fields use JavaScript
destructuring defaults (only `undefined` is replaced, a zero stays zero). -/
def audioOutputOpts (hasAudio : Bool) (audio : Option AudioSettingsReq)
    (target : ℚ) (audioIdx : Int) : List OutputOpt :=
  if hasAudio then
    (match audio with
     | some a =>
         [.audioFilter (a.fadeIn.getD 0) (target - a.fadeOut.getD 0)
            (a.fadeOut.getD 0) (a.volume.getD 1)]
     | none => []) ++ [.mapAudioStream audioIdx]
  else []

/-- The route.ts POST handler up to command production (lines 147–372):
validate that every clip's file exists (the only rejection path), run
duration reconciliation, build the filter graph, and assemble the command.
`probed` are the ffprobe source durations, `audioProbed` the audio
duration when the audio file exists.  Input paths keep the bare file
names (the directory prefix is a storage-layout convention). -/
def compileRoute (fileExists : String → Bool) (req : EditRequest)
    (probed : List ℚ) (hasAudio : Bool) (audioProbed : ℚ) :
    Except String CompiledCommand :=
  match req.clips.find? (fun c => !fileExists c.fileName) with
  | some c => .error ("Video file not found: " ++ c.fileName)
  | none =>
      let clips := req.clips.zip probed
      let total := totalVideoDuration clips
      let audioDuration := audioDurationOf hasAudio audioProbed
      let target := targetDuration total audioDuration
      let ds := actualDurations clips audioDuration
      let audioIdx : Int := if hasAudio then req.clips.length else -1
      .ok
        { inputFiles := req.clips.map (·.fileName) ++
            (if hasAudio then ["generated_speech.mp3"] else []),
          filterComplex := [routeFilterGraph req.effects ds],
          outputOptions :=
            .mapLabel "finalv" ::
            audioOutputOpts hasAudio req.audio target audioIdx ++
            [.videoCodec, .presetMedium, .crf23, .audioCodec,
             .size1080x1920, .rate24, .duration target],
          outputPath := "public/output/edited_video.mp4" }

/-! ## String helpers of part_013's FFmpegCommandBuilder

`escapeText` and `getTextPosition` work on lists of characters; the few
special characters are named via their code points to keep the embedding
explicit. -/

/-- The apostrophe character `'` (code point 39). -/
def quoteChar : Char := Char.ofNat 39

/-- The backslash character (code point 92). -/
def backslashChar : Char := Char.ofNat 92

/-- The forward slash character `/` (code point 47). -/
def slashChar : Char := Char.ofNat 47

/-- The colon character `:` (code point 58). -/
def colonChar : Char := Char.ofNat 58

/-- The opening bracket `[` (code point 91). -/
def lbracketChar : Char := Char.ofNat 91

/-- The closing bracket `]` (code point 93). -/
def rbracketChar : Char := Char.ofNat 93

/-- JavaScript `String.prototype.replace` with a global single-character
pattern: every occurrence of `c` is replaced by `r`, scanning the original
characters left to right (replacements are not rescanned). -/
def replaceChar (c : Char) (r : List Char) : List Char → List Char
  | [] => []
  | x :: xs => (if x = c then r else [x]) ++ replaceChar c r xs

/-- `escapeText` of part_013 (lines 113–120): replace `'` by `'\''`, then
escape `:`, `[`, `]` with a backslash each, then replace every backslash
by `/`.  The final step rewrites the backslashes the earlier steps
inserted. -/
def escapeTextList (s : List Char) : List Char :=
  replaceChar backslashChar [slashChar]
    (replaceChar rbracketChar [backslashChar, rbracketChar]
      (replaceChar lbracketChar [backslashChar, lbracketChar]
        (replaceChar colonChar [backslashChar, colonChar]
          (replaceChar quoteChar [quoteChar, backslashChar, quoteChar, quoteChar] s))))

/-- String-level `escapeText`. -/
def escapeText (s : String) : String := ⟨escapeTextList s.data⟩

/-- JavaScript `position.split(",")` on the character list: split at every
comma, keeping empty segments. -/
def splitCommaAux : List Char → List Char → List (List Char)
  | [], acc => [acc.reverse]
  | c :: cs, acc =>
      if c = ',' then acc.reverse :: splitCommaAux cs []
      else splitCommaAux cs (c :: acc)

/-- Split a character list on commas. -/
def splitComma (s : List Char) : List (List Char) := splitCommaAux s []

/-- Non-empty and all decimal digits — one `\d+` group of the source's
`^\d+,\d+$` test. -/
def isDigits (s : List Char) : Bool :=
  !s.isEmpty && s.all Char.isDigit

/-- The named-anchor vocabulary of `getTextPosition` (part_013 lines
131–139, identical in route.ts lines 108–116). -/
def namedPositions : List (String × String) :=
  [("center,center", "x=(w-text_w)/2:y=(h-text_h)/2"),
   ("center,top", "x=(w-text_w)/2:y=10"),
   ("center,bottom", "x=(w-text_w)/2:y=h-text_h-10"),
   ("left,center", "x=10:y=(h-text_h)/2"),
   ("right,center", "x=w-text_w-10:y=(h-text_h)/2"),
   ("center,top+150", "x=(w-text_w)/2:y=150"),
   ("center,bottom-100", "x=(w-text_w)/2:y=h-text_h-100")]

/-- `positions["center,center"]`, the fallback expression. -/
def centerCenterExpr : String := "x=(w-text_w)/2:y=(h-text_h)/2"

/-- `positions[position] || positions["center,center"]`. -/
def lookupPosition (p : String) : String :=
  match namedPositions.find? (fun kv => kv.1 == p) with
  | some kv => kv.2
  | none => centerCenterExpr

/-- `getTextPosition` (part_013 lines 126–147): a `\d+,\d+` position is
used verbatim as literal coordinates, otherwise the named-anchor table is
consulted with `center,center` as fallback. -/
def getTextPosition (p : String) : String :=
  match splitComma p.data with
  | [x, y] =>
      if isDigits x && isDigits y then
        "x=" ++ String.mk x ++ ":y=" ++ String.mk y
      else lookupPosition p
  | _ => lookupPosition p

/-- `buildTextFilter` (part_013 lines 149–177): drawtext stage from
`lastLabel` to `nextLabel` with escaped content, resolved position and
`enable='gte(t,ST)*lte(t,ST+DUR)'`. -/
def buildTextFilter (t : TextOverlay) (lastLabel nextLabel : String) : FilterStage :=
  ⟨[lastLabel],
   .drawtext13 (escapeText t.content) t.fontSize t.color
     (getTextPosition t.position)
     (jsOr t.startTime 0) (jsOr t.startTime 0 + jsOr t.duration 0),
   [nextLabel]⟩

/-! ## part_013 filter-graph construction (POST, lines 252–405) -/

/-- A clip after duration reconciliation (`adjustedClips` entries): the
fields the part_013 graph code reads. -/
structure AdjustedClip where
  fileName : String
  speed : Option ℚ
  actualDuration : ℚ
  deriving DecidableEq

/-- `adjustedClips` from the request clips, probed durations and the audio
duration (both revisions, lines 158–195 resp. 210–247). -/
def adjustClips (clips : List (VideoClip × ℚ)) (audioDuration : ℚ) :
    List AdjustedClip :=
  let total := totalVideoDuration clips
  let scale := durationScale total (targetDuration total audioDuration)
  clips.map fun p => ⟨p.1.fileName, p.1.speed, clipDuration p.1 p.2 * scale⟩

/-- part_013's dead `clipFilters` (lines 252–265): trim/speed chunks
`[N:v]trim=duration=D,setpts=PTS/S[clip{i}]` that would produce the
`clip{i}` labels.  The source pushes them into a local array and never
adds them to the builder. -/
def part13ClipFilters (cs : List AdjustedClip) : List FilterStage :=
  cs.enum.map fun p =>
    ⟨[toString p.1 ++ ":v"], .trimSpeed p.2.actualDuration (jsOr p.2.speed 1),
     ["clip" ++ toString p.1]⟩

/-- part_013 per-clip section (lines 277–316): scale chain from
`[clip{i}]`, speed `setpts`, then zoompan or scale/pad, ending in
`[zoomedclip{i}]`.  Note the first stage consumes `[clip{i}]`. -/
def part13PerClip (zp : Option ZoomPan) (i : Nat) (c : AdjustedClip) :
    List FilterStage :=
  [⟨["clip" ++ toString i], .scaleChain13, ["scaledclip" ++ toString i]⟩,
   ⟨["scaledclip" ++ toString i], .setpts (1 / jsOr c.speed 1),
    ["speedclip" ++ toString i]⟩] ++
  (match zp with
   | some z =>
       [⟨["speedclip" ++ toString i],
         .zoompan13 (z.zoomStart.getD 1) (z.zoomEnd.getD 2) (z.duration.getD 5),
         ["zoomedclip" ++ toString i]⟩]
   | none =>
       [⟨["speedclip" ++ toString i], .padChain13, ["zoomedclip" ++ toString i]⟩])

/-- part_013 transition fades (lines 318–341): same first/middle/last
branching as route.ts but reading `[zoomedclip{i}]` and dividing each
clip's actual duration by its speed. -/
def part13FadeStages (T : ℚ) (cs : List AdjustedClip) : List FilterStage :=
  cs.enum.map fun p =>
    ⟨["zoomedclip" ++ toString p.1],
     fadeExpr T cs.length p.1 (p.2.actualDuration / jsOr p.2.speed 1),
     ["fadedclip" ++ toString p.1]⟩

/-- part_013 text overlay section (lines 370–383): `buildTextFilter` per
overlay threaded `colorv → text0 → ... → textv`, else a `copy`. -/
def part13TextStages (ot : Option (List TextOverlay)) : List FilterStage :=
  match ot with
  | some ts =>
      if ts.length > 0 then
        ts.enum.map fun p =>
          buildTextFilter p.2 (if p.1 = 0 then "colorv" else textLabel ts.length (p.1 - 1))
            (textLabel ts.length p.1)
      else [⟨["colorv"], .copy, ["textv"]⟩]
  | none => [⟨["colorv"], .copy, ["textv"]⟩]

/-- part_013's final-filter section (lines 393–399): a truthy (non-empty)
`finalFilter` string is inserted raw before the format stage. -/
def part13FinalStages (finalFilter : Option String) : List FilterStage :=
  match finalFilter with
  | some f =>
      if f = "" then [⟨["speedv"], .formatYuv, ["finalv"]⟩]
      else [⟨["speedv"], .rawFilter f, ["filteredv"]⟩,
            ⟨["filteredv"], .formatYuv, ["finalv"]⟩]
  | none => [⟨["speedv"], .formatYuv, ["finalv"]⟩]

/-- The whole part_013 filter graph (lines 274–403).  The per-clip section
consumes `[clip{i}]`, which only the never-added `part13ClipFilters`
chunks would produce. -/
def part13FilterGraph (effects : Option Effects) (finalFilter : Option String)
    (cs : List AdjustedClip) : List FilterStage :=
  let n := cs.length
  (cs.enum.flatMap fun p => part13PerClip (effects.bind (·.zoomPan)) p.1 p.2) ++
  (match effects.bind (·.transition) with
   | some t =>
       part13FadeStages (jsOrNum t.duration 1) cs ++
       [⟨(List.range n).map (fun i => "fadedclip" ++ toString i), .concat n, ["mainv"]⟩]
   | none =>
       [⟨(List.range n).map (fun i => "zoomedclip" ++ toString i), .concat n, ["mainv"]⟩]) ++
  (match effects with
   | some e =>
       colorStage e.colorAdjustment ::
       part13TextStages e.text ++
       speedStage e.speed ::
       part13FinalStages finalFilter
   | none => [⟨["mainv"], .formatYuv, ["finalv"]⟩])

/-- The part_013 POST handler up to command production: identical
validation and reconciliation, then its own graph. -/
def compilePart13 (fileExists : String → Bool) (req : EditRequest)
    (probed : List ℚ) (hasAudio : Bool) (audioProbed : ℚ) :
    Except String CompiledCommand :=
  match req.clips.find? (fun c => !fileExists c.fileName) with
  | some c => .error ("Video file not found: " ++ c.fileName)
  | none =>
      let clips := req.clips.zip probed
      let total := totalVideoDuration clips
      let audioDuration := audioDurationOf hasAudio audioProbed
      let target := targetDuration total audioDuration
      let cs := adjustClips clips audioDuration
      let audioIdx : Int := if hasAudio then req.clips.length else -1
      .ok
        { inputFiles := req.clips.map (·.fileName) ++
            (if hasAudio then ["generated_speech.mp3"] else []),
          filterComplex := [part13FilterGraph req.effects req.finalFilter cs],
          outputOptions :=
            .mapLabel "finalv" ::
            audioOutputOpts hasAudio req.audio target audioIdx ++
            [.videoCodec, .presetMedium, .crf23, .audioCodec,
             .size1080x1920, .rate24, .duration target],
          outputPath := "public/output/edited_video.mp4" }

/-! ## Parameter normalization of analyzeEdit's mergeWithDefaults
(src/app/api/analyzeEdit/route.ts, lines 237–364) -/

/-- The normalized audio settings produced by `mergeWithDefaults`. -/
structure MergedAudio where
  volume : ℚ
  fadeIn : ℚ
  fadeOut : ℚ
  bass : ℚ
  treble : ℚ
  deriving DecidableEq

/-- `audioSettings` of `mergeWithDefaults` (lines 264–288): each field is
`clamp(aiResponse.audio?.field || DEFAULT, lo, hi)` with defaults
volume 0.8, fadeIn 2, fadeOut 2, bass 2, treble 1. -/
def mergeAudioSettings (a : Option AudioSettingsReq) : MergedAudio :=
  { volume := clamp (jsOr (a.bind (·.volume)) (8/10)) (1/2) 1,
    fadeIn := clamp (jsOr (a.bind (·.fadeIn)) 2) (1/2) 2,
    fadeOut := clamp (jsOr (a.bind (·.fadeOut)) 2) (1/2) 2,
    bass := clamp (jsOr (a.bind (·.bass)) 2) 1 3,
    treble := clamp (jsOr (a.bind (·.treble)) 1) 1 2 }

/-- The transition duration of `mergeWithDefaults` (lines 352–357):
`clamp(aiResponse.effects?.transition?.duration || 1, 0.5, 2)`. -/
def mergeTransitionDuration (d : Option ℚ) : ℚ :=
  clamp (jsOr d 1) (1/2) 2

/-! ## Predicates on fade expressions (for the transition-placement and
trivial-graph properties) -/

/-- `true` iff the expression contains a fade-out filter. -/
def exprHasFadeOut : FilterExpr → Bool
  | .fadeOut _ _ => true
  | .fadeInOut _ _ _ => true
  | _ => false

/-- `true` iff the expression contains a fade-in filter. -/
def exprHasFadeIn : FilterExpr → Bool
  | .fadeIn _ => true
  | .fadeInOut _ _ _ => true
  | _ => false

/-- The `(st, d)` window of the fade-out filter, when present. -/
def fadeOutWindow : FilterExpr → Option (ℚ × ℚ)
  | .fadeOut st d => some (st, d)
  | .fadeInOut _ stOut dOut => some (stOut, dOut)
  | _ => none

/-- The `(st, d)` window of the fade-in filter, when present (fade-ins
always start at 0). -/
def fadeInWindow : FilterExpr → Option (ℚ × ℚ)
  | .fadeIn d => some (0, d)
  | .fadeInOut dIn _ _ => some (0, dIn)
  | _ => none

/-- `true` iff the expression is the bare `copy` passthrough. -/
def exprIsCopy : FilterExpr → Bool
  | .copy => true
  | _ => false

/-! ## Concrete inputs used by witnesses and counterexamples -/

/-- Two clips with probed source durations 2 and 7; the second requests
3 seconds, so the per-clip durations are [2, 3]. -/
def reconcileWitnessClips : List (VideoClip × ℚ) :=
  [(⟨"video_1.mp4", none, none⟩, 2), (⟨"video_2.mp4", some 3, none⟩, 7)]

/-- One clip requesting 5 seconds (probed source 6), used for the no-audio
evaluation. -/
def noAudioClips : List (VideoClip × ℚ) := [(⟨"video_1.mp4", some 5, none⟩, 6)]

/-- A request with an empty clip list. -/
def emptyReq : EditRequest := { clips := [] }

/-- A request with a single clip and no effects. -/
def singleClipReq : EditRequest := { clips := [⟨"video_1.mp4", some 5, none⟩] }

/-- The command compileRoute produces for `singleClipReq` with probed
duration 6 and a 10-second audio track (target 5, scale 1). -/
def routeCmd1 : CompiledCommand :=
  { inputFiles := ["video_1.mp4", "generated_speech.mp3"],
    filterComplex := [[⟨["0:v"], .normChain 5, ["normclip0"]⟩,
                      ⟨["normclip0"], .concat 1, ["mainv"]⟩,
                      ⟨["mainv"], .formatYuv, ["finalv"]⟩]],
    outputOptions := [.mapLabel "finalv", .mapAudioStream 1, .videoCodec, .presetMedium,
                      .crf23, .audioCodec, .size1080x1920, .rate24, .duration 5],
    outputPath := "public/output/edited_video.mp4" }

/-- The part_013 graph for one 5-second clip (probed 6, audio 15, no
effects). -/
def part13Graph1 : List FilterStage :=
  part13FilterGraph none none
    (adjustClips [(⟨"video_1.mp4", some 5, none⟩, 6)] (audioDurationOf true 15))

/-- The single-clip request fed to compilePart13. -/
def part13Req : EditRequest := { clips := [⟨"video_1.mp4", some 5, none⟩] }

/-! # Theorems -/

/-- Scaling a list elementwise scales its sum. -/
theorem sum_map_mul_const (l : List ℚ) (k : ℚ) : (l.map (· * k)).sum = l.sum * k := by
  induction l with
  | nil => simp
  | cons a t ih => simp [ih, add_mul]

/-- Claim C1: duration reconciliation is proportional.  For any clip list
with positive per-clip durations (requested, falling back to probed) and
an audio duration `A` with `0 < A < Σ dᵢ`, the compiler sets every
`actualDurationᵢ = dᵢ · (A / Σ dᵢ)`, the actual durations sum exactly to
`A`, and `actualDurationᵢ / dᵢ` is the same value `A / Σ dᵢ` for every
clip. -/
theorem duration_reconciliation_proportional
    (clips : List (VideoClip × ℚ)) (A : ℚ)
    (hpos : ∀ d ∈ clipDurations clips, 0 < d)
    (hA0 : 0 < A) (hAlt : A < totalVideoDuration clips) :
    actualDurations clips (audioDurationOf true A) =
      (clipDurations clips).map (fun d => d * (A / totalVideoDuration clips)) ∧
    (actualDurations clips (audioDurationOf true A)).sum = A ∧
    ∀ d ∈ clipDurations clips,
      d * (A / totalVideoDuration clips) / d = A / totalVideoDuration clips := by
  have htot : (0:ℚ) < totalVideoDuration clips := lt_trans hA0 hAlt
  have haud : audioDurationOf true A = A := rfl
  have htarget : targetDuration (totalVideoDuration clips) A = A := min_eq_right hAlt.le
  have hmap : actualDurations clips (audioDurationOf true A) =
      (clipDurations clips).map (fun d => d * (A / totalVideoDuration clips)) := by
    simp only [actualDurations, haud, htarget, durationScale]
  refine ⟨hmap, ?_, ?_⟩
  · have hts : (clipDurations clips).sum = totalVideoDuration clips := rfl
    rw [hmap, sum_map_mul_const, hts, mul_comm, div_mul_cancel₀ _ (ne_of_gt htot)]
  · intro d hd
    exact mul_div_cancel_left₀ _ (ne_of_gt (hpos d hd))

/-- Witness for C1: two clips with durations [2, 3] and a 4-second audio
track; the reconciled durations sum to 4. -/
theorem duration_reconciliation_proportional_witness :
    (∀ d ∈ clipDurations reconcileWitnessClips, 0 < d) ∧ ((0:ℚ) < 4) ∧
      (4 < totalVideoDuration reconcileWitnessClips) ∧
      ((actualDurations reconcileWitnessClips (audioDurationOf true 4)).sum = 4) :=
  ⟨by decide,
   by norm_num,
   by norm_num [totalVideoDuration, clipDurations, clipDuration, jsOr, reconcileWitnessClips],
   (duration_reconciliation_proportional reconcileWitnessClips 4 (by decide) (by norm_num)
      (by norm_num [totalVideoDuration, clipDurations, clipDuration, jsOr,
        reconcileWitnessClips])).2.1⟩

/-- Claim C2 (code bug in the part_013 revision): its generated filter
graph consumes the label `clip0` that no stage of the graph produces —
the trim chunks that would produce it (`part13ClipFilters`) are built into
a local array the source never adds to the builder.  Evaluated at a
single-clip request (duration 5, probed 6, 15-second audio): `clip0` is
consumed but not produced in the compiled command's graph, while the
dropped `clipFilters` would have produced it. -/
theorem part13_clip_label_dangling :
    labelConsumed part13Graph1 "clip0" = true ∧
    labelProduced part13Graph1 "clip0" = false ∧
    labelProduced (part13ClipFilters
      (adjustClips [(⟨"video_1.mp4", some 5, none⟩, 6)] (audioDurationOf true 15)))
      "clip0" = true ∧
    (compilePart13 (fun _ => true) part13Req [6] true 15).map (fun c => c.filterComplex) =
      .ok [part13Graph1] :=
  ⟨by decide, by decide, by decide, rfl⟩

/-- Claim C3 (code bug): with no audio track the code leaves
`audioDuration = 0`, so `targetDuration = min(totalVideoDuration, 0) = 0`
and the duration scale is 0 — not `targetDuration = totalVideoDuration`
and scale 1 as specified.  Evaluated at one clip of requested duration 5:
every actual duration collapses to 0. -/
theorem no_audio_makes_target_zero :
    totalVideoDuration noAudioClips = 5 ∧
    audioDurationOf false 12 = 0 ∧
    targetDuration (totalVideoDuration noAudioClips) (audioDurationOf false 12) = 0 ∧
    durationScale (totalVideoDuration noAudioClips)
      (targetDuration (totalVideoDuration noAudioClips) (audioDurationOf false 12)) = 0 ∧
    actualDurations noAudioClips (audioDurationOf false 12) = [0] := by
  norm_num [totalVideoDuration, clipDurations, clipDuration, jsOr, noAudioClips,
    audioDurationOf, targetDuration, durationScale, actualDurations]

/-- Claim C4 (code bug): an empty clip list is not rejected.  The
per-clip existence check is vacuous, reconciliation divides by the zero
total (NaN in JavaScript, 0 in this ℚ embedding), and the compiler
proceeds to graph construction and emits a full command whose graph
contains a `concat=n=0` stage — even when no input file exists at all. -/
theorem empty_clip_list_not_rejected :
    compileRoute (fun _ => false) emptyReq [] true 10 = .ok
      { inputFiles := ["generated_speech.mp3"],
        filterComplex := [[⟨[], .concat 0, ["mainv"]⟩, ⟨["mainv"], .formatYuv, ["finalv"]⟩]],
        outputOptions := [.mapLabel "finalv", .mapAudioStream 0, .videoCodec, .presetMedium,
                          .crf23, .audioCodec, .size1080x1920, .rate24, .duration 0],
        outputPath := "public/output/edited_video.mp4" } := by
  norm_num [compileRoute, emptyReq, totalVideoDuration, clipDurations, audioDurationOf,
    targetDuration, durationScale, actualDurations, routeFilterGraph, normStages,
    audioOutputOpts]

/-- Counterexample to claim C5 as stated, refuting both of its clauses at
concrete inputs.  First, with a single clip (duration 5) and a fade
transition of 1 second, the generated graph applies a fade-out to clip 0
even though clip 0 is the last clip (`n − 1 = 0`), contradicting
"fade-out to every clip except the last".  Second, with two clips of
actual durations 4 and 1/2 and the same 1-second transition, the last
clip's fade stage is a fade-in with window `(0, 1)`, whose end `0 + 1`
exceeds that clip's actual duration 1/2, contradicting "the fade windows
… never exceed the clip's length". -/
theorem last_clip_gets_fade_out :
    (routeFilterGraph (some { transition := some ⟨"fade", 1⟩ }) [5] =
      [⟨["0:v"], .normChain 5, ["normclip0"]⟩,
       ⟨["normclip0"], .fadeOut 4 1, ["fadedclip0"]⟩,
       ⟨["fadedclip0"], .concat 1, ["mainv"]⟩,
       ⟨["mainv"], .copy, ["colorv"]⟩,
       ⟨["colorv"], .copy, ["textv"]⟩,
       ⟨["textv"], .copy, ["speedv"]⟩,
       ⟨["speedv"], .formatYuv, ["finalv"]⟩] ∧
     (1:Nat) - 1 = 0 ∧ exprHasFadeOut (.fadeOut 4 1) = true) ∧
    (fadeStages 1 [4, 1/2] =
      [⟨["normclip0"], .fadeOut 3 1, ["fadedclip0"]⟩,
       ⟨["normclip1"], .fadeIn 1, ["fadedclip1"]⟩] ∧
     fadeInWindow (.fadeIn 1) = some (0, 1) ∧
     ((1:ℚ)/2 < 0 + 1)) := by
  refine ⟨⟨?_, rfl, rfl⟩, ⟨?_, rfl, by norm_num⟩⟩
  · norm_num [routeFilterGraph, normStages, fadeStages, fadeExpr, jsOrNum, colorStage,
      routeTextStages, speedStage, List.enum]
    all_goals decide
  · norm_num [fadeStages, fadeExpr, List.enum]
    all_goals decide

/-- Claim C5 as amended: for `n ≥ 2` clips with a transition, stage `i`
reads `[normclip i]`, applies `fadeExpr` to the clip's own actual
duration, and writes `[fadedclip i]`; a fade-out is present exactly on
clips other than the last and a fade-in exactly on clips other than the
first; every fade-out window is `(dᵢ − T, T)`, ending exactly at the
clip's actual duration, and every fade-in window is `(0, T)` (which can
extend past a clip shorter than `T`).  A single clip (`n = 1`) instead
receives only a fade-out. -/
theorem transition_fade_placement (T : ℚ) (ds : List ℚ) (i : Nat) (d : ℚ)
    (hn : 2 ≤ ds.length) (hi : i < ds.length) (hd : ds[i]? = some d) :
    (fadeStages T ds)[i]? =
      some ⟨["normclip" ++ toString i], fadeExpr T ds.length i d,
            ["fadedclip" ++ toString i]⟩ ∧
    (exprHasFadeOut (fadeExpr T ds.length i d) = true ↔ i ≠ ds.length - 1) ∧
    (exprHasFadeIn (fadeExpr T ds.length i d) = true ↔ i ≠ 0) ∧
    (i ≠ ds.length - 1 →
      fadeOutWindow (fadeExpr T ds.length i d) = some (d - T, T) ∧ d - T + T = d) ∧
    (i ≠ 0 → fadeInWindow (fadeExpr T ds.length i d) = some (0, T)) := by
  have hget : (fadeStages T ds)[i]? =
      some ⟨["normclip" ++ toString i], fadeExpr T ds.length i d,
            ["fadedclip" ++ toString i]⟩ := by
    simp [fadeStages, List.getElem?_map, List.getElem?_enum, hd]
  have hne : ds.length - 1 ≠ 0 := by omega
  refine ⟨hget, ?_, ?_, ?_, ?_⟩ <;>
    (unfold fadeExpr
     split_ifs with h0 h1 <;>
       simp_all [exprHasFadeOut, exprHasFadeIn, fadeOutWindow, fadeInWindow] <;>
       first
        | omega
        | ring)

/-- Witness for the amended C5 at 3 clips of durations [4, 5, 6] with a
1-second transition, instantiated at the middle clip. -/
theorem transition_fade_placement_witness :
    ((2:Nat) ≤ 3) ∧ ((1:Nat) < 3) ∧ (([(4:ℚ), 5, 6])[1]? = some 5) ∧
    (exprHasFadeIn (fadeExpr 1 3 1 5) = true ↔ (1:Nat) ≠ 0) :=
  ⟨by decide, by decide, by decide,
   (transition_fade_placement 1 [4, 5, 6] 1 5 (by decide) (by decide) (by decide)).2.2.1⟩

/-- Counterexample to claim C6 as stated: a single clip with no effects
still yields a `-filter_complex` flag (the builder's filter list is
non-empty) and a three-stage graph — full normalization chain, a
`concat=n=1` stage and a format stage — none of which is a copy
passthrough. -/
theorem single_clip_graph_not_trivial :
    (compileRoute (fun _ => true) singleClipReq [6] true 10).map
      (fun c => (hasFilterComplexFlag c, c.filterComplex.map List.length)) =
        .ok (true, [3]) ∧
    (compileRoute (fun _ => true) singleClipReq [6] true 10).map
      (fun c => (c.filterComplex.map fun g => g.map fun s => exprIsCopy s.expr)) =
        .ok [[false, false, false]] := by
  constructor <;> rfl

/-- Claim C6 as amended: for one clip with actual duration `d` and no
effects object, the graph is exactly the three stages
`[0:v]<normalization chain>[normclip0]`, `[normclip0]concat=n=1[mainv]`,
`[mainv]format=yuv420p[finalv]`, and every successfully compiled command
carries the `-filter_complex` flag (the builder always receives the
graph). -/
theorem single_clip_no_effects_graph (d : ℚ) :
    routeFilterGraph none [d] =
      [⟨["0:v"], .normChain d, ["normclip0"]⟩,
       ⟨["normclip0"], .concat 1, ["mainv"]⟩,
       ⟨["mainv"], .formatYuv, ["finalv"]⟩] ∧
    ∀ (fe : String → Bool) (req : EditRequest) (probed : List ℚ) (hasAudio : Bool)
      (aP : ℚ) (cmd : CompiledCommand),
      compileRoute fe req probed hasAudio aP = .ok cmd →
      hasFilterComplexFlag cmd = true := by
  constructor
  · simp [routeFilterGraph, normStages, List.enum]
    all_goals decide
  · intro fe req probed hasAudio aP cmd h
    unfold compileRoute at h
    cases hf : req.clips.find? (fun c => !fe c.fileName) with
    | some c => rw [hf] at h; exact absurd h (by simp)
    | none =>
        rw [hf] at h
        simp only [Except.ok.injEq] at h
        rw [← h]
        rfl

/-- Witness for the amended C6: the single-clip request compiles to
`routeCmd1`, which carries the `-filter_complex` flag. -/
theorem single_clip_no_effects_graph_witness :
    (routeFilterGraph none [(5:ℚ)] =
      [⟨["0:v"], .normChain 5, ["normclip0"]⟩,
       ⟨["normclip0"], .concat 1, ["mainv"]⟩,
       ⟨["mainv"], .formatYuv, ["finalv"]⟩]) ∧
    hasFilterComplexFlag routeCmd1 = true :=
  ⟨(single_clip_no_effects_graph 5).1,
   (single_clip_no_effects_graph 5).2 (fun _ => true) singleClipReq [6] true 10 routeCmd1
     (by norm_num [compileRoute, singleClipReq, routeCmd1, totalVideoDuration,
        clipDurations, clipDuration, jsOr, audioDurationOf, targetDuration,
        durationScale, actualDurations, routeFilterGraph, normStages,
        audioOutputOpts, List.enum] <;> decide)⟩

/-- Claim C7: `clamp` is idempotent and its output lies in `[lo, hi]`
whenever `lo ≤ hi`. -/
theorem clamp_idempotent_bounded (x lo hi : ℚ) (h : lo ≤ hi) :
    clamp (clamp x lo hi) lo hi = clamp x lo hi ∧
    lo ≤ clamp x lo hi ∧ clamp x lo hi ≤ hi := by
  have hhi : clamp x lo hi ≤ hi := min_le_right _ _
  have hlo : lo ≤ clamp x lo hi := le_min (le_max_right x lo) h
  refine ⟨?_, hlo, hhi⟩
  show min (max (clamp x lo hi) lo) hi = clamp x lo hi
  rw [max_eq_left hlo, min_eq_left hhi]

/-- Witness for C7 at `x = 3`, `lo = 0`, `hi = 1`. -/
theorem clamp_idempotent_bounded_witness :
    ((0:ℚ) ≤ 1) ∧
    (clamp (clamp 3 0 1) 0 1 = clamp 3 0 1 ∧ (0:ℚ) ≤ clamp 3 0 1 ∧ clamp 3 0 1 ≤ 1) :=
  ⟨by norm_num, clamp_idempotent_bounded 3 0 1 (by norm_num)⟩

/-- Claim C9 (code bug): text escaping is not effective.  `escapeText`'s
final step replaces every backslash — including the escape backslashes the
earlier steps just inserted — with `/`, so a colon in the input survives
unescaped (the output for ":" is "/:" with no backslash at all) and a
quote survives as quote characters (the output for "'" is "'/''"), which
can terminate the quoted `text='...'` field of the drawtext filter. -/
theorem escape_text_ineffective :
    escapeText (String.mk [colonChar]) = String.mk [slashChar, colonChar] ∧
    colonChar ∈ (escapeText (String.mk [colonChar])).data ∧
    backslashChar ∉ (escapeText (String.mk [colonChar])).data ∧
    escapeText (String.mk [quoteChar]) =
      String.mk [quoteChar, slashChar, quoteChar, quoteChar] ∧
    quoteChar ∈ (escapeText (String.mk [quoteChar])).data := by
  refine ⟨by decide, by decide, by decide, by decide, by decide⟩

/-- Claim C10: a numeric parameter explicitly supplied as 0 is replaced by
its default before clamping: volume 0 → 0.8 (not the range minimum 0.5),
fadeIn/fadeOut 0 → 2, transition duration 0 → 1 (in both the videoEditor
`|| 1` and the mergeWithDefaults clamp), and a clip duration of 0 falls
back to the probed source duration. -/
theorem zero_treated_as_missing :
    (mergeAudioSettings (some { volume := some 0, fadeIn := some 0, fadeOut := some 0 })).volume
        = 8/10 ∧
    ((8:ℚ)/10 ≠ 1/2) ∧
    (mergeAudioSettings (some { fadeIn := some 0 })).fadeIn = 2 ∧
    (mergeAudioSettings (some { fadeOut := some 0 })).fadeOut = 2 ∧
    jsOrNum 0 1 = 1 ∧
    mergeTransitionDuration (some 0) = 1 ∧
    ∀ sourceDuration : ℚ,
      clipDuration { fileName := "video_1.mp4", duration := some 0 } sourceDuration
        = sourceDuration := by
  norm_num [mergeAudioSettings, mergeTransitionDuration, clamp, jsOr, jsOrNum,
    clipDuration, min_def, max_def]

end Videoverse
